import Mathlib

/-!
Shallow embedding of the compile/deploy orchestration of the NEAR contract
editor component (src/frontend/src/components/NEARContractEditor.tsx).

The component state is the collection of useState hooks; each user-facing
operation (compileContract, deployContract, loadTemplate, disconnectWallet)
is translated as a pure function from state to state, with the outcome of
each external call (the build service, the wallet provider) passed in as an
explicit parameter, and the externally observable effects (alerts, network
requests, wallet sign-out) collected in an event list.
-/

/-- Response shape of the compile endpoint (interface CompileResponse). -/
structure CompileResponse where
  success : Bool
  output : String
  errors : Option String
  wasm_size : Option Nat
deriving DecidableEq

/-- Outcome record of a deploy cycle (interface DeployResponse). -/
structure DeployResponse where
  success : Bool
  transactionHash : Option String
  contractId : Option String
  error : Option String
deriving DecidableEq

/-- Wallet identity (interface WalletConnection). -/
structure WalletConnection where
  accountId : String
  isSignedIn : Bool
deriving DecidableEq

/-- A starter template from the catalogue (interface ContractTemplate). -/
structure ContractTemplate where
  name : String
  description : String
  code : String
deriving DecidableEq

/-- The component state: the useState hooks of NEARContractEditor.
hasNearConnection models whether nearConnection is non-null. -/
structure EditorState where
  code : String
  contractName : String
  compiling : Bool
  deploying : Bool
  compileResult : Option CompileResponse
  deployResult : Option DeployResponse
  templates : List ContractTemplate
  selectedTemplate : String
  wallet : WalletConnection
  hasNearConnection : Bool
deriving DecidableEq

/-- Externally observable effects of one operation invocation. -/
inductive EditorEvent where
  | alertMsg (msg : String)
  | postCompile (code contract_name : String)
  | getWasm (contractName : String)
  | deployTx
  | walletSignOut
deriving DecidableEq

/-- The characters matched by the JavaScript whitespace class (the regex
class backslash-s, also the set removed by String.prototype.trim). -/
def isJsSpace (c : Char) : Bool :=
  c = ' ' || c = '\t' || c = '\n' || c = '\r' || c = '\x0b' || c = '\x0c' ||
  c = '\u00A0' || c = '\u1680' || ('\u2000' ≤ c && c ≤ '\u200A') ||
  c = '\u2028' || c = '\u2029' || c = '\u202F' || c = '\u205F' ||
  c = '\u3000' || c = '\uFEFF'

/-- JavaScript String.prototype.trim: strip leading and trailing
whitespace characters. -/
def jsTrim (s : String) : String :=
  String.mk (((s.data.dropWhile isJsSpace).reverse.dropWhile isJsSpace).reverse)

/-- Helper for the whitespace-run replacement: the flag records whether
the previous character belonged to a whitespace run, so that each maximal
run emits exactly one underscore at its first character. -/
def squashWsAux (prevSpace : Bool) : List Char → List Char
  | [] => []
  | c :: rest =>
    if isJsSpace c then
      if prevSpace then squashWsAux true rest
      else '_' :: squashWsAux true rest
    else c :: squashWsAux false rest

/-- The JavaScript global replace of one-or-more whitespace characters by
a single underscore character: each maximal whitespace run becomes one
underscore. -/
def squashWs (cs : List Char) : List Char := squashWsAux false cs

/-- templateName.toLowerCase().replace of whitespace runs by underscores,
from loadTemplate (line 216). -/
def normalizeTemplateName (name : String) : String :=
  String.mk (squashWs (name.data.map Char.toLower))

/-- Outcome of the POST request to the compile endpoint: the axios promise
either resolves with a response body or rejects with an error. -/
inductive CompileNet where
  | ok (resp : CompileResponse)
  | err (e : String)
deriving DecidableEq

/-- Lines 144-146: set the compiling flag, clear both results. This state
is the one in force when the compile request is issued. -/
def compileStart (s : EditorState) : EditorState :=
  { s with compiling := true, compileResult := none, deployResult := none }

/-- Lines 148-162: the request to the compile endpoint, the success path,
the catch path synthesizing a failed CompileResponse, and the finally
block clearing the compiling flag. -/
def compileRun (net : CompileNet) (s : EditorState) : EditorState × List EditorEvent :=
  match net with
  | CompileNet.ok resp =>
      ({ s with compileResult := some resp, compiling := false },
       [EditorEvent.postCompile s.code s.contractName])
  | CompileNet.err e =>
      let r : CompileResponse :=
        { success := false, output := "",
          errors := some ("Network error: " ++ e), wasm_size := none }
      ({ s with compileResult := some r, compiling := false },
       [EditorEvent.postCompile s.code s.contractName])

/-- compileContract (lines 138-163). Lines 139-142: if either the code or
the contract name is empty after trimming, alert and return without any
other effect. Note that the function performs no check of the compiling
flag itself. -/
def compileContract (net : CompileNet) (s : EditorState) : EditorState × List EditorEvent :=
  if jsTrim s.code = "" ∨ jsTrim s.contractName = "" then
    (s, [EditorEvent.alertMsg "Please provide both contract name and code"])
  else
    compileRun net (compileStart s)

/-- Outcome of the external calls of a deploy cycle: the artifact download
throws, the sign-and-submit throws, or everything succeeds with a
transaction hash. The carried string is the thrown error's message. -/
inductive DeployNet where
  | fetchErr (msg : String)
  | signErr (msg : String)
  | ok (txHash : String)
deriving DecidableEq

/-- Line 205: error.message with the JavaScript falsy fallback to the
literal message when error.message is the empty string. -/
def deployErrMsg (m : String) : String :=
  if m = "" then "Deployment failed" else m

/-- Lines 176-177: set the deploying flag and clear the previous deploy
result. -/
def deployStart (s : EditorState) : EditorState :=
  { s with deploying := true, deployResult := none }

/-- The local precondition checks of deployContract (lines 166-174):
the alert message when a check fails, none when both checks pass. -/
def deployPrecheck (s : EditorState) : Option String :=
  match s.compileResult with
  | none => some "Please compile the contract successfully first"
  | some cr =>
    if cr.success = false then some "Please compile the contract successfully first"
    else if s.wallet.isSignedIn = false then some "Please connect your wallet first"
    else none

/-- Lines 179-209: download the artifact, derive the contract id from the
contract name, the timestamp and the account id, sign and submit, write
the outcome, and clear the deploying flag in the finally block. the
timestamp parameter stands for the value of Date.now(). -/
def deployRun (net : DeployNet) (timestamp : Nat) (s : EditorState) :
    EditorState × List EditorEvent :=
  match net with
  | DeployNet.fetchErr m =>
      let r : DeployResponse :=
        { success := false, transactionHash := none, contractId := none,
          error := some (deployErrMsg m) }
      ({ s with deployResult := some r, deploying := false },
       [EditorEvent.getWasm s.contractName])
  | DeployNet.signErr m =>
      let r : DeployResponse :=
        { success := false, transactionHash := none, contractId := none,
          error := some (deployErrMsg m) }
      ({ s with deployResult := some r, deploying := false },
       [EditorEvent.getWasm s.contractName, EditorEvent.deployTx])
  | DeployNet.ok tx =>
      let cid : String :=
        s.contractName ++ "_" ++ toString timestamp ++ "." ++ s.wallet.accountId
      let r : DeployResponse :=
        { success := true, transactionHash := some tx,
          contractId := some cid, error := none }
      ({ s with deployResult := some r, deploying := false },
       [EditorEvent.getWasm s.contractName, EditorEvent.deployTx])

/-- deployContract (lines 165-210): the local precondition checks, then
the guarded cycle. -/
def deployContract (net : DeployNet) (timestamp : Nat) (s : EditorState) :
    EditorState × List EditorEvent :=
  match deployPrecheck s with
  | some msg => (s, [EditorEvent.alertMsg msg])
  | none => deployRun net timestamp (deployStart s)

/-- disconnectWallet (lines 119-125): when a connection context exists,
sign out, reset the wallet identity, and clear the deploy result. -/
def disconnectWallet (s : EditorState) : EditorState × List EditorEvent :=
  if s.hasNearConnection = true then
    ({ s with wallet := { accountId := "", isSignedIn := false },
              deployResult := none },
     [EditorEvent.walletSignOut])
  else (s, [])

/-- loadTemplate (lines 212-221): look the name up in the catalogue; on a
hit, load the source, normalize the name into the contract name, and clear
both results; in every case record the selection. -/
def loadTemplate (templateName : String) (s : EditorState) : EditorState :=
  match s.templates.find? (fun u => u.name == templateName) with
  | some t =>
      { s with code := t.code,
               contractName := normalizeTemplateName templateName,
               compileResult := none,
               deployResult := none,
               selectedTemplate := templateName }
  | none => { s with selectedTemplate := templateName }

/-- The deploy preconditions as a boolean: the last compile result exists
with success true, and the wallet is signed in. -/
def deployPrecond (s : EditorState) : Bool :=
  (match s.compileResult with
   | some cr => cr.success
   | none => false) && s.wallet.isSignedIn

/-! Helper lemmas shared by the claim theorems. -/

/-- The precondition checks of deployContract pass exactly when the last
compile result exists with success true and the wallet is signed in. -/
theorem deployPrecheck_none_iff (s : EditorState) :
    deployPrecheck s = none ↔ deployPrecond s = true := by
  cases hc : s.compileResult with
  | none => simp [deployPrecheck, deployPrecond, hc]
  | some cr =>
    cases hs : cr.success <;> cases hw : s.wallet.isSignedIn <;>
      simp [deployPrecheck, deployPrecond, hc, hs, hw]

/-- When the precondition checks pass, deployContract runs the guarded
cycle from the deployStart state. -/
theorem deployContract_run (s : EditorState) (net : DeployNet) (ts : Nat)
    (h : deployPrecheck s = none) :
    deployContract net ts s = deployRun net ts (deployStart s) := by
  unfold deployContract
  rw [h]

/-- When both compile inputs are non-empty after trimming, compileContract
runs the cycle from the compileStart state. -/
theorem compileContract_run (s : EditorState) (net : CompileNet)
    (h : ¬ (jsTrim s.code = "" ∨ jsTrim s.contractName = "")) :
    compileContract net s = compileRun net (compileStart s) := by
  unfold compileContract
  rw [if_neg h]

/-- The synthesized network-failure log of a compile cycle is never the
empty string. -/
theorem networkErrorMsg_ne_empty (e : String) : "Network error: " ++ e ≠ "" := by
  intro hEq
  have hlen : ("Network error: " ++ e).length = (0 : Nat) := by rw [hEq]; rfl
  rw [String.length_append] at hlen
  have h15 : ("Network error: ").length = 15 := rfl
  rw [h15] at hlen
  omega

/-- The deploy failure message, with its falsy fallback, is never the
empty string. -/
theorem deployErrMsg_ne_empty (m : String) : deployErrMsg m ≠ "" := by
  unfold deployErrMsg
  by_cases hm : m = ""
  · rw [if_pos hm]; decide
  · rw [if_neg hm]; exact hm

/-! Concrete session states used by the witnesses. -/

/-- A successful compile response. -/
def respOk : CompileResponse :=
  { success := true, output := "ok", errors := none, wasm_size := some 1024 }

/-- A signed-in wallet identity. -/
def walletOn : WalletConnection :=
  { accountId := "alice.testnet", isSignedIn := true }

/-- A baseline session: valid inputs, signed-out wallet, no results. -/
def sBase : EditorState :=
  { code := "let x = 1", contractName := "hello_near", compiling := false,
    deploying := false, compileResult := none, deployResult := none,
    templates := [], selectedTemplate := "",
    wallet := { accountId := "", isSignedIn := false },
    hasNearConnection := true }

/-- A session after a successful compile, wallet signed in. -/
def sReady : EditorState :=
  { sBase with compileResult := some respOk, wallet := walletOn }

/-- A session after a successful compile but with the wallet signed out. -/
def sNoWallet : EditorState :=
  { sBase with compileResult := some respOk }

/-- A session whose contract name is whitespace only. -/
def sBlankName : EditorState :=
  { sBase with contractName := "   " }

/-- A session with a compile cycle already in flight. -/
def sInFlight : EditorState :=
  { sBase with compiling := true }

/-- A catalogue template whose name carries mixed case and a double
space. -/
def tDemo : ContractTemplate :=
  { name := "My Token  V2", description := "demo", code := "contract src" }

/-- A session holding one catalogue template and stale results. -/
def sTemplates : EditorState :=
  { sBase with templates := [tDemo], compileResult := some respOk,
               deployResult := some { success := false, transactionHash := none,
                                      contractId := none, error := some "x" } }

/-! The claim theorems. -/

/-- C1: the deploying flag only becomes true when the last compile result
exists with success true and the wallet is signed in: under the
precondition, deployContract enters the guarded cycle whose start state
sets the flag; when the precondition fails, the invocation leaves the
state untouched and emits only a local alert, with no network event. -/
theorem deploy_inflight_guard (s : EditorState) (net : DeployNet) (ts : Nat) :
    (deployPrecond s = true →
       deployContract net ts s = deployRun net ts (deployStart s) ∧
       (deployStart s).deploying = true) ∧
    (deployPrecond s = false →
       ∃ msg, deployContract net ts s = (s, [EditorEvent.alertMsg msg])) := by
  constructor
  · intro h
    exact ⟨deployContract_run s net ts ((deployPrecheck_none_iff s).mpr h), rfl⟩
  · intro h
    cases hc : deployPrecheck s with
    | none =>
      have htrue : deployPrecond s = true := (deployPrecheck_none_iff s).mp hc
      rw [htrue] at h
      simp at h
    | some msg =>
      refine ⟨msg, ?_⟩
      unfold deployContract
      rw [hc]

/-- C1 witness: on a ready session the cycle is entered with the flag set;
on a session with a signed-out wallet the invocation is a pure alert. -/
theorem deploy_inflight_guard_witness :
    (deployContract (DeployNet.ok "h1") 5 sReady =
        deployRun (DeployNet.ok "h1") 5 (deployStart sReady) ∧
      (deployStart sReady).deploying = true) ∧
    (∃ msg, deployContract (DeployNet.ok "h1") 5 sNoWallet =
        (sNoWallet, [EditorEvent.alertMsg msg])) :=
  ⟨(deploy_inflight_guard sReady (DeployNet.ok "h1") 5).1 (by decide),
   (deploy_inflight_guard sNoWallet (DeployNet.ok "h1") 5).2 (by decide)⟩

/-- C2: counterexample to the claimed in-flight guard. compileContract
contains no check of the compiling flag: invoked on a session whose
compiling flag is already true, with valid inputs, it still issues a
network request to the compile endpoint and overwrites the result, so the
flag itself does not reject a second invocation; only the disabled button
attribute in the view prevents it. -/
theorem compile_lacks_inflight_guard :
    sInFlight.compiling = true ∧
    (compileContract (CompileNet.ok respOk) sInFlight).snd =
      [EditorEvent.postCompile "let x = 1" "hello_near"] ∧
    (compileContract (CompileNet.ok respOk) sInFlight).fst.compileResult =
      some respOk := by
  refine ⟨rfl, rfl, rfl⟩

/-- C3: with the code or the contract name empty after trimming,
compileContract performs no network call, surfaces one validation alert,
and leaves the whole session state unchanged. -/
theorem compile_empty_input_rejected (s : EditorState) (net : CompileNet)
    (h : jsTrim s.code = "" ∨ jsTrim s.contractName = "") :
    compileContract net s =
      (s, [EditorEvent.alertMsg "Please provide both contract name and code"]) := by
  unfold compileContract
  rw [if_pos h]

/-- C3 witness: a whitespace-only contract name is rejected locally. -/
theorem compile_empty_input_rejected_witness :
    compileContract (CompileNet.ok respOk) sBlankName =
      (sBlankName,
       [EditorEvent.alertMsg "Please provide both contract name and code"]) :=
  compile_empty_input_rejected sBlankName (CompileNet.ok respOk) (Or.inr (by decide))

/-- C4: every compile invocation with valid inputs terminates with the
compiling flag false and a compile result present; on a network-level
failure the synthesized result is the failed response with a non-empty
error log. -/
theorem compile_terminal_outcome (s : EditorState) (net : CompileNet)
    (h : ¬ (jsTrim s.code = "" ∨ jsTrim s.contractName = "")) :
    ((compileContract net s).fst.compiling = false) ∧
    ((compileContract net s).fst.compileResult ≠ none) ∧
    (∀ e, net = CompileNet.err e →
       (compileContract net s).fst.compileResult =
         some { success := false, output := "",
                errors := some ("Network error: " ++ e), wasm_size := none } ∧
       "Network error: " ++ e ≠ "") := by
  rw [compileContract_run s net h]
  refine ⟨?_, ?_, ?_⟩
  · cases net <;> rfl
  · cases net <;> simp [compileRun, compileStart]
  · intro e he
    subst he
    exact ⟨rfl, networkErrorMsg_ne_empty e⟩

/-- C4 witness: a failed network request on the baseline session ends with
the flag cleared and the synthesized failure result. -/
theorem compile_terminal_outcome_witness :
    ((compileContract (CompileNet.err "boom") sBase).fst.compiling = false) ∧
    ((compileContract (CompileNet.err "boom") sBase).fst.compileResult ≠ none) ∧
    (∀ e, CompileNet.err "boom" = CompileNet.err e →
       (compileContract (CompileNet.err "boom") sBase).fst.compileResult =
         some { success := false, output := "",
                errors := some ("Network error: " ++ e), wasm_size := none } ∧
       "Network error: " ++ e ≠ "") :=
  compile_terminal_outcome sBase (CompileNet.err "boom") (by decide)

/-- C5: a valid compile invocation runs from the compileStart state, which
has the compiling flag set and both results cleared, and the single
request it issues carries the current source and contract name. -/
theorem compile_clears_before_request (s : EditorState) (net : CompileNet)
    (h : ¬ (jsTrim s.code = "" ∨ jsTrim s.contractName = "")) :
    compileContract net s = compileRun net (compileStart s) ∧
    (compileStart s).compiling = true ∧
    (compileStart s).compileResult = none ∧
    (compileStart s).deployResult = none ∧
    (compileContract net s).snd =
      [EditorEvent.postCompile s.code s.contractName] := by
  refine ⟨compileContract_run s net h, rfl, rfl, rfl, ?_⟩
  rw [compileContract_run s net h]
  cases net <;> rfl

/-- C5 witness: on the baseline session the cleared start state and the
single request are observed concretely. -/
theorem compile_clears_before_request_witness :
    compileContract (CompileNet.ok respOk) sBase =
      compileRun (CompileNet.ok respOk) (compileStart sBase) ∧
    (compileStart sBase).compiling = true ∧
    (compileStart sBase).compileResult = none ∧
    (compileStart sBase).deployResult = none ∧
    (compileContract (CompileNet.ok respOk) sBase).snd =
      [EditorEvent.postCompile sBase.code sBase.contractName] :=
  compile_clears_before_request sBase (CompileNet.ok respOk) (by decide)

/-- C6: every deploy invocation passing the local preconditions terminates
with the deploying flag false; any failure, whether in the artifact fetch
or in the sign-and-submit, yields the single failure shape with a
non-empty error message, and a fully successful cycle yields the success
shape carrying the transaction hash and the derived contract id. -/
theorem deploy_terminal_outcomes (s : EditorState) (net : DeployNet) (ts : Nat)
    (h : deployPrecond s = true) :
    ((deployContract net ts s).fst.deploying = false) ∧
    (∀ m, (net = DeployNet.fetchErr m ∨ net = DeployNet.signErr m) →
       (deployContract net ts s).fst.deployResult =
         some { success := false, transactionHash := none, contractId := none,
                error := some (deployErrMsg m) } ∧
       deployErrMsg m ≠ "") ∧
    (∀ tx, net = DeployNet.ok tx →
       (deployContract net ts s).fst.deployResult =
         some { success := true, transactionHash := some tx,
                contractId := some (s.contractName ++ "_" ++ toString ts
                                      ++ "." ++ s.wallet.accountId),
                error := none }) := by
  rw [deployContract_run s net ts ((deployPrecheck_none_iff s).mpr h)]
  refine ⟨?_, ?_, ?_⟩
  · cases net <;> rfl
  · intro m hm
    rcases hm with hm | hm <;> subst hm <;>
      exact ⟨rfl, deployErrMsg_ne_empty m⟩
  · intro tx htx
    subst htx
    rfl

/-- C6 witness: an artifact-fetch fault with an empty thrown message ends
with the flag cleared and the fallback failure message. -/
theorem deploy_terminal_outcomes_witness :
    ((deployContract (DeployNet.fetchErr "") 7 sReady).fst.deploying = false) ∧
    ((deployContract (DeployNet.fetchErr "") 7 sReady).fst.deployResult =
      some { success := false, transactionHash := none, contractId := none,
             error := some "Deployment failed" }) :=
  ⟨(deploy_terminal_outcomes sReady (DeployNet.fetchErr "") 7 (by decide)).1,
   ((deploy_terminal_outcomes sReady (DeployNet.fetchErr "") 7 (by decide)).2.1
      "" (Or.inl rfl)).1⟩

/-- C7: the deployment identifier reported by a successful cycle is
exactly the contract name, an underscore, the timestamp, a dot, and the
connected account id, in that order. -/
theorem deploy_contract_id_composition (s : EditorState) (ts : Nat) (tx : String)
    (h : deployPrecond s = true) :
    (deployContract (DeployNet.ok tx) ts s).fst.deployResult =
      some { success := true, transactionHash := some tx,
             contractId := some (s.contractName ++ "_" ++ toString ts
                                   ++ "." ++ s.wallet.accountId),
             error := none } := by
  rw [deployContract_run s (DeployNet.ok tx) ts ((deployPrecheck_none_iff s).mpr h)]
  rfl

/-- C7 witness: on the ready session at timestamp 42 the reported id is
the composed string, and two distinct timestamps give distinct ids. -/
theorem deploy_contract_id_composition_witness :
    ((deployContract (DeployNet.ok "txh") 42 sReady).fst.deployResult =
      some { success := true, transactionHash := some "txh",
             contractId := some "hello_near_42.alice.testnet",
             error := none }) ∧
    ("hello_near_42.alice.testnet" : String) ≠ "hello_near_43.alice.testnet" :=
  ⟨deploy_contract_id_composition sReady 42 "txh" (by decide), by decide⟩

/-- C8: loading a template that the catalogue lookup resolves sets the
source text to the template's source, the contract name to the template's
name lowercased with each whitespace run replaced by one underscore, and
clears both results; the selection marker records the name. -/
theorem load_template_found (s : EditorState) (t : ContractTemplate)
    (h : s.templates.find? (fun u => u.name == t.name) = some t) :
    loadTemplate t.name s =
      { s with code := t.code,
               contractName := normalizeTemplateName t.name,
               compileResult := none,
               deployResult := none,
               selectedTemplate := t.name } := by
  unfold loadTemplate
  rw [h]

/-- C8 witness: loading the demo template rewrites the session as claimed,
and the normalized name is concretely the lowercased underscore form. -/
theorem load_template_found_witness :
    (loadTemplate tDemo.name sTemplates =
      { sTemplates with code := tDemo.code,
                        contractName := normalizeTemplateName tDemo.name,
                        compileResult := none,
                        deployResult := none,
                        selectedTemplate := tDemo.name }) ∧
    normalizeTemplateName tDemo.name = "my_token_v2" :=
  ⟨load_template_found sTemplates tDemo (by decide), by decide⟩

/-- C9: when a connection context exists, disconnecting the wallet resets
the identity to its signed-out default and clears the deploy result, while
the compile result, the source text, the contract name, and the template
selection are unchanged. -/
theorem disconnect_clears_deploy_keeps_compile (s : EditorState)
    (h : s.hasNearConnection = true) :
    disconnectWallet s =
      ({ s with wallet := { accountId := "", isSignedIn := false },
                deployResult := none },
       [EditorEvent.walletSignOut]) ∧
    (disconnectWallet s).fst.compileResult = s.compileResult ∧
    (disconnectWallet s).fst.code = s.code ∧
    (disconnectWallet s).fst.contractName = s.contractName ∧
    (disconnectWallet s).fst.selectedTemplate = s.selectedTemplate := by
  unfold disconnectWallet
  rw [if_pos h]
  exact ⟨rfl, rfl, rfl, rfl, rfl⟩

/-- C9 witness: disconnecting on the ready session clears the deploy
result yet keeps the successful compile result. -/
theorem disconnect_clears_deploy_keeps_compile_witness :
    (disconnectWallet sReady =
      ({ sReady with wallet := { accountId := "", isSignedIn := false },
                     deployResult := none },
       [EditorEvent.walletSignOut])) ∧
    (disconnectWallet sReady).fst.compileResult = some respOk :=
  ⟨(disconnect_clears_deploy_keeps_compile sReady rfl).1,
   (disconnect_clears_deploy_keeps_compile sReady rfl).2.1⟩

/-- C10: loading a name that matches no catalogue template changes only
the selection marker: source text, contract name, and both results are
untouched. -/
theorem load_template_not_found (s : EditorState) (nm : String)
    (h : s.templates.find? (fun u => u.name == nm) = none) :
    loadTemplate nm s = { s with selectedTemplate := nm } := by
  unfold loadTemplate
  rw [h]

/-- C10 witness: the empty selection and an absent name each update only
the selection marker of the catalogue session. -/
theorem load_template_not_found_witness :
    loadTemplate "" sTemplates = { sTemplates with selectedTemplate := "" } ∧
    loadTemplate "Nope" sTemplates =
      { sTemplates with selectedTemplate := "Nope" } :=
  ⟨load_template_not_found sTemplates "" (by decide),
   load_template_not_found sTemplates "Nope" (by decide)⟩
